import Mathlib

/-!
A verification development for the ptch-grab pipeline definition
(`pipeline.py`).  The pipeline pulls items from a tracker, stages each item
in a per-item directory named by the SHA-1 hex digest of the item name,
fetches it with an external Wget+Lua subprocess, moves the produced WARC
file to the durable data directory, and uploads it under a concurrency
limit.

The Python code is shallowly embedded below: the two project-specific
tasks (`PrepareDirectories.process`, `MoveFiles.process`) are translated
against an explicit filesystem state, string and hashing library calls
(`str.split`, `hashlib.sha1().hexdigest()`, `time.strftime`) are given
executable Lean counterparts, and the seesaw framework pieces that the
pipeline configures but whose code lives outside this repository
(exit-code handling, the bounded retry loop, the concurrency limiter,
the tracker tasks' effect on item fields) are modelled from the spec.
-/

/-! ### SHA-1, the embedding of Python's `hashlib.sha1(s).hexdigest()` -/

/-- Reduction of a natural number to a 32-bit word. -/
def w32 (n : Nat) : Nat := n % 4294967296

/-- Left rotation of a 32-bit word by `b` bits (for `n < 2 ^ 32`). -/
def rotl (b n : Nat) : Nat := (n * 2 ^ b + n / 2 ^ (32 - b)) % 4294967296

/-- Big-endian byte decomposition of `n` into `k` bytes. -/
def beBytes : Nat → Nat → List Nat
  | 0, _ => []
  | k + 1, n => beBytes k (n / 256) ++ [n % 256]

/-- SHA-1 message padding: a `0x80` byte, zeros, and the 64-bit big-endian
bit length, bringing the length to a multiple of 64 bytes. -/
def sha1pad (msg : List Nat) : List Nat :=
  msg ++ 128 :: List.replicate ((64 - (msg.length + 9) % 64) % 64) 0
      ++ beBytes 8 (msg.length * 8)

/-- Big-endian 32-bit words of a byte sequence. -/
def wordsOfBytes : List Nat → List Nat
  | a :: b :: c :: d :: rest =>
      (((a * 256 + b) * 256 + c) * 256 + d) :: wordsOfBytes rest
  | _ => []

/-- Message-schedule expansion: appends `k` further words to `w`. -/
def sha1WsGo (w : List Nat) : Nat → List Nat
  | 0 => w
  | k + 1 =>
      sha1WsGo
        (w ++ [rotl 1 ((w.getD (w.length - 3) 0) ^^^ (w.getD (w.length - 8) 0)
          ^^^ (w.getD (w.length - 14) 0) ^^^ (w.getD (w.length - 16) 0))]) k

/-- The 80-word message schedule of a 16-word block. -/
def sha1Ws (block : List Nat) : List Nat := sha1WsGo block 64

/-- The five 32-bit words of the SHA-1 chaining state. -/
structure Sha1State where
  a : Nat
  b : Nat
  c : Nat
  d : Nat
  e : Nat
deriving DecidableEq

/-- The SHA-1 round function `f_t`. -/
def sha1F (t b c d : Nat) : Nat :=
  if t < 20 then (b &&& c) ||| ((4294967295 - b) &&& d)
  else if t < 40 then b ^^^ c ^^^ d
  else if t < 60 then (b &&& c) ||| (b &&& d) ||| (c &&& d)
  else b ^^^ c ^^^ d

/-- The SHA-1 round constant `K_t`. -/
def sha1KC (t : Nat) : Nat :=
  if t < 20 then 1518500249
  else if t < 40 then 1859775393
  else if t < 60 then 2400959708
  else 3395469782

/-- One SHA-1 round. -/
def sha1Round (w : List Nat) (st : Sha1State) (t : Nat) : Sha1State :=
  { a := w32 (rotl 5 st.a + sha1F t st.b st.c st.d + st.e + sha1KC t + w.getD t 0)
    b := st.a
    c := rotl 30 st.b
    d := st.c
    e := st.d }

/-- SHA-1 compression of one 16-word block into the chaining state. -/
def sha1Compress (h : Sha1State) (block : List Nat) : Sha1State :=
  let st := (List.range 80).foldl (sha1Round (sha1Ws block)) h
  { a := w32 (h.a + st.a)
    b := w32 (h.b + st.b)
    c := w32 (h.c + st.c)
    d := w32 (h.d + st.d)
    e := w32 (h.e + st.e) }

/-- Iterated compression over `n` 16-word blocks. -/
def sha1Loop : Nat → Sha1State → List Nat → Sha1State
  | 0, h, _ => h
  | n + 1, h, ws => sha1Loop n (sha1Compress h (ws.take 16)) (ws.drop 16)

/-- Lowercase hexadecimal digit. -/
def hexChar (n : Nat) : Char :=
  if n < 10 then Char.ofNat (48 + n) else Char.ofNat (87 + n)

/-- Eight-digit lowercase hexadecimal rendering of a 32-bit word. -/
def hex8 (n : Nat) : String :=
  String.mk ((List.range 8).map fun i => hexChar (n / 16 ^ (7 - i) % 16))

/-- Python's `hashlib.sha1(s).hexdigest()`: the SHA-1 digest of the bytes
of `s`, rendered as 40 lowercase hexadecimal characters. -/
def sha1hexdigest (s : String) : String :=
  let ws := wordsOfBytes (sha1pad (s.toUTF8.toList.map UInt8.toNat))
  let h := sha1Loop (ws.length / 16)
    ⟨1732584193, 4023233417, 2562383102, 271733878, 3285377520⟩ ws
  hex8 h.a ++ hex8 h.b ++ hex8 h.c ++ hex8 h.d ++ hex8 h.e

/-! ### Time formatting, the embedding of `time.strftime("%Y%m%d-%H%M%S")` -/

/-- A broken-down local time, as `time.strftime` reads it. -/
structure Tm where
  year : Nat
  mon : Nat
  mday : Nat
  hour : Nat
  min : Nat
  sec : Nat
deriving DecidableEq

/-- Two-digit zero-padded decimal field. -/
def pad2 (n : Nat) : String := if n < 10 then "0" ++ toString n else toString n

/-- Python's `time.strftime("%Y%m%d-%H%M%S")` on a broken-down time:
a timestamp of second granularity. -/
def strftimeYmdHMS (t : Tm) : String :=
  toString t.year ++ pad2 t.mon ++ pad2 t.mday ++ "-"
    ++ pad2 t.hour ++ pad2 t.min ++ pad2 t.sec

/-! ### The filesystem state threaded through the tasks -/

/-- Filesystem paths, as the Python code builds them: strings joined
with `"/"`. -/
abbrev FPath := String

/-- Whether `p` lies strictly inside the directory `d`: `d ++ "/"` is a
prefix of `p`. -/
def pathUnder (d p : FPath) : Bool := (d ++ "/").data.isPrefixOf p.data

/-- The filesystem as observed by the code: which paths are directories
(`os.path.isdir`) and which paths hold a file with which contents. -/
structure FS where
  isdir : FPath → Bool
  file : FPath → Option String

/-- `shutil.rmtree d`: the directory `d` and everything under it is gone. -/
def FS.rmtree (fs : FS) (d : FPath) : FS :=
  { isdir := fun p => if p = d ∨ pathUnder d p then false else fs.isdir p
    file := fun p => if pathUnder d p then none else fs.file p }

/-- `os.makedirs d`: the directory `d` exists afterwards. -/
def FS.makedirs (fs : FS) (d : FPath) : FS :=
  { fs with isdir := fun p => if p = d then true else fs.isdir p }

/-- `open(p, "w").close()`: creates (or truncates) `p` as an empty file. -/
def FS.createEmpty (fs : FS) (p : FPath) : FS :=
  { fs with file := fun q => if q = p then some "" else fs.file q }

/-- `os.rename src dst`: fails when `src` is not a file, otherwise the
contents move from `src` to `dst`. -/
def FS.rename (fs : FS) (src dst : FPath) : Option FS :=
  (fs.file src).map fun c =>
    { fs with file := fun p => if p = dst then some c else if p = src then none else fs.file p }

/-- The filesystem with no directories and no files. -/
def FS.empty : FS := { isdir := fun _ => false, file := fun _ => none }

/-! ### The item and the project-specific tasks -/

/-- The mutable work context one item threads through the pipeline.  The
fields written by `PrepareDirectories.process` are `Option`-valued so that
"not yet assigned" is a state of the model. -/
structure Item where
  item_name : String
  data_dir : String
  url_list : List String
  item_dir : Option String
  warc_file_base : Option String
  log : List String
  stats : Option (List (String × String))
deriving DecidableEq

/-- Python's `s.split(',')`: split at every comma.  (For a one-character
separator Python's `str.split` is exactly character-predicate splitting.) -/
def pySplitComma (s : String) : List String := s.split (fun c => c == ',')

/-- The `PrepareDirectories(SimpleTask)` task: carries the configured
`warc_prefix` (instantiated as `"ptch"` in the pipeline). -/
structure PrepareDirectories where
  warc_prefix : String
deriving DecidableEq

/-- `PrepareDirectories.process(item)`: splits the item name into
`url_list`, logs each URL, hashes the item name, recreates the staging
directory `data_dir/<sha1>` (removing it first if it exists), assigns
`item_dir` and `warc_file_base`, and pre-creates the empty placeholder
`<item_dir>/<warc_file_base>.warc.gz`.  `now` stands for the wall clock
read by `time.strftime`. -/
def PrepareDirectories.process (self : PrepareDirectories) (now : Tm)
    (item : Item) (fs : FS) : Item × FS :=
  let item_name := item.item_name
  let item1 := { item with
    url_list := pySplitComma item_name
    log := item.log ++ (pySplitComma item_name).map (fun url => "URL: " ++ url) }
  let truncated_item_name := sha1hexdigest item_name
  let dirname := item.data_dir ++ "/" ++ truncated_item_name
  let fs1 := if fs.isdir dirname then fs.rmtree dirname else fs
  let fs2 := fs1.makedirs dirname
  let base := self.warc_prefix ++ "-" ++ truncated_item_name ++ "-" ++ strftimeYmdHMS now
  let item2 := { item1 with item_dir := some dirname, warc_file_base := some base }
  let fs3 := fs2.createEmpty (dirname ++ "/" ++ base ++ ".warc.gz")
  (item2, fs3)

/-- `MoveFiles.process(item)`: renames
`<item_dir>/<warc_file_base>.warc.gz` to
`<data_dir>/<warc_file_base>.warc.gz`, then `shutil.rmtree`s the staging
directory.  `none` is the model of a raised exception: a missing item
field for the `%` interpolation, a missing source file for `os.rename`,
or a missing directory for `shutil.rmtree`. -/
def MoveFiles.process (item : Item) (fs : FS) : Option FS :=
  match item.item_dir, item.warc_file_base with
  | some dir, some base =>
    match fs.rename (dir ++ "/" ++ base ++ ".warc.gz")
        (item.data_dir ++ "/" ++ base ++ ".warc.gz") with
    | some fs1 => if fs1.isdir dir then some (fs1.rmtree dir) else none
    | none => none
  | _, _ => none

/-! ### Constants and the wget argument list -/

/-- The pipeline version string (`VERSION` in `pipeline.py`). -/
def VERSION : String := "20131227.01"

/-- The user agent passed to wget (`USER_AGENT` in `pipeline.py`). -/
def USER_AGENT : String := "Mozilla/5.0 (Windows; U; Windows NT 6.1; en-US) AppleWebKit/533.20.25 (KHTML, like Gecko) Version/5.0.4 Safari/533.20.27"

/-- The tracker project id (`TRACKER_ID` in `pipeline.py`). -/
def TRACKER_ID : String := "ptch"

/-- The tracker host (`TRACKER_HOST` in `pipeline.py`). -/
def TRACKER_HOST : String := "tracker.archiveteam.org"

/-- One piece of an argument template: literal text, or an item field
spliced in by seesaw's `ItemInterpolation` (a `"%(key)s"` placeholder). -/
inductive Piece where
  | raw (s : String)
  | key (name : String)
deriving DecidableEq

/-- Reading an item field by its interpolation key, as `"... % item"` does:
a key the item does not hold raises, which the model returns as `none`. -/
def itemField (name : String) (item : Item) : Option String :=
  if name = "item_name" then some item.item_name
  else if name = "data_dir" then some item.data_dir
  else if name = "item_dir" then item.item_dir
  else if name = "warc_file_base" then item.warc_file_base
  else none

/-- An `ItemInterpolation` template made of `Piece`s, resolved against an
item by concatenation. -/
def interpolate (item : Item) : List Piece → Option String
  | [] => some ""
  | Piece.raw s :: rest => (interpolate item rest).map (fun r => s ++ r)
  | Piece.key name :: rest => do
      let v ← itemField name item
      let r ← interpolate item rest
      pure (v ++ r)

/-- Shorthand for a literal argument. -/
def lit (s : String) : List Piece := [Piece.raw s]

/-- Shorthand for an `ItemInterpolation` placeholder piece. -/
def ph (name : String) : Piece := Piece.key name

/-- The `wget_args` list of `pipeline.py` (lines 107-134): the fixed flag
set, with `ItemInterpolation` templates for the per-item paths, extended
with `--bind-address` when the optional global `bind_address` is set.
`wgetLua` stands for the discovered `WGET_LUA` executable path. -/
def wget_args (wgetLua : String) (bindAddress : Option String) : List (List Piece) :=
  [lit wgetLua,
   lit "-U", lit USER_AGENT,
   lit "-nv",
   lit "-o", [ph "item_dir", Piece.raw "/wget.log"],
   lit "--lua-script", lit "ptch.lua",
   lit "--no-check-certificate",
   lit "--output-document", [ph "item_dir", Piece.raw "/wget.tmp"],
   lit "--truncate-output",
   lit "-e", lit "robots=off",
   lit "--rotate-dns",
   lit "--page-requisites",
   lit "--timeout", lit "60",
   lit "--tries", lit "inf",
   lit "--waitretry", lit "120",
   lit "--span-hosts",
   lit "--domains", lit "ptch.com,ptchcdn.com,viewptch.ptchcdn.com,site-images.ptchcdn.com,site-nav.ptchcdn.com,assets.ptchcdn.com",
   lit "--warc-file", [ph "item_dir", Piece.raw "/", ph "warc_file_base"],
   lit "--warc-header", lit "operator: Archive Team",
   lit "--warc-header", lit ("ptch-dld-script-version: " ++ VERSION),
   lit "--warc-header", [Piece.raw "wretch-user: ", ph "item_name"]]
  ++ (match bindAddress with
      | some a => [lit "--bind-address", lit a]
      | none => [])

/-- Resolution of a whole argument list against an item, as seesaw's
`realize` does: every template is interpolated, a missing key raises. -/
def interpolateAll (item : Item) : List (List Piece) → Option (List String)
  | [] => some []
  | t :: ts => do
      let v ← interpolate item t
      let rest ← interpolateAll item ts
      pure (v :: rest)

/-- `WgetArgFactory.realize(item)`: the realized `wget_args` followed by
the item's `url_list`. -/
def WgetArgFactory.realize (wgetLua : String) (bindAddress : Option String)
    (item : Item) : Option (List String) :=
  (interpolateAll item (wget_args wgetLua bindAddress)).map
    (fun args => args ++ item.url_list)

/-! ### The seesaw pieces the pipeline configures

The seesaw framework itself is not part of this repository; the models
below follow the spec's contracts for its components, while the
configuration values fed to them are taken from `pipeline.py`. -/

/-- Modelled from the spec: a stage's tagged outcome — `Success` (item
proceeds), `RetryableFailure` (may be re-invoked by the Retry Policy),
`FatalFailure` (item is reported undone). -/
inductive StageResult where
  | Success
  | RetryableFailure
  | FatalFailure
deriving DecidableEq

/-- Modelled from the spec: the Subprocess Runner (seesaw's external
process stage, missing from this repository) maps the subprocess exit
status against the configured acceptable codes: acceptable means
`Success`, anything else `RetryableFailure`. -/
def exitCodeResult (accept : List Int) (code : Int) : StageResult :=
  if accept.contains code then StageResult.Success else StageResult.RetryableFailure

/-- The configuration `pipeline.py` passes to seesaw's `WgetDownload`
(lines 161-165): `max_tries=5`, `accept_on_exit_code=[0, 8]`. -/
structure WgetDownload where
  max_tries : Nat
  accept_on_exit_code : List Int
deriving DecidableEq

/-- The fetch stage of the pipeline: `WgetDownload(WgetArgFactory(),
max_tries=5, accept_on_exit_code=[0, 8])`. -/
def fetchStage : WgetDownload := { max_tries := 5, accept_on_exit_code := [0, 8] }

/-- Modelled from the spec: the Retry Policy (seesaw's bounded retry loop,
missing from this repository) with `remaining` attempts left.  Invokes the
stage; on `RetryableFailure` it re-invokes until attempts are exhausted and
then converts the failure into `FatalFailure`; any other result stops the
loop.  Returns the final result with the number of invocations made,
`used` counting the invocations already spent. -/
def retryRun (stage : Nat → StageResult) : Nat → Nat → StageResult × Nat
  | 0, used => (StageResult.FatalFailure, used)
  | remaining + 1, used =>
      match stage used with
      | StageResult.RetryableFailure => retryRun stage remaining (used + 1)
      | r => (r, used + 1)

/-- seesaw's `NumberConfigValue` as `pipeline.py` instantiates it: the
bounds and default of an operator-configurable number. -/
structure NumberConfigValue where
  min : Nat
  max : Nat
  default : String
  name : String
  title : String
  description : String
deriving DecidableEq

/-- The upload-concurrency configuration value of `pipeline.py`
(lines 173-175): `NumberConfigValue(min=1, max=4, default="1",
name="shared:rsync_threads", ...)`, the ceiling of the `LimitConcurrent`
wrapper around `UploadWithTracker`. -/
def rsync_threads : NumberConfigValue :=
  { min := 1
    max := 4
    default := "1"
    name := "shared:rsync_threads"
    title := "Rsync threads"
    description := "The maximum number of concurrent uploads." }

/-- Modelled from the spec: one observable event at a Concurrency Gate —
a stage execution entering under the gate, or one leaving. -/
inductive GateEvent where
  | enter
  | leave
deriving DecidableEq

/-- Modelled from the spec: the Concurrency Gate's admission rule
(seesaw's `LimitConcurrent`, missing from this repository).  With `cnt`
executions currently under the gate and ceiling `N`, an `enter` is
admitted only while `cnt < N` (otherwise the caller stays blocked, which
the model renders as `none`); a `leave` releases one permit. -/
def gateStep (N cnt : Nat) : GateEvent → Option Nat
  | GateEvent.enter => if cnt < N then some (cnt + 1) else none
  | GateEvent.leave => if 0 < cnt then some (cnt - 1) else none

/-- Modelled from the spec: a gate history replayed from `cnt` concurrent
executions; `some` is the number of executions under the gate at the end
of an admissible history. -/
def gateSteps (N : Nat) : Nat → List GateEvent → Option Nat
  | cnt, [] => some cnt
  | cnt, e :: es =>
      match gateStep N cnt e with
      | some c => gateSteps N c es
      | none => none

/-- Modelled from the spec: a gate history replayed from an idle gate. -/
def gateRun (N : Nat) (es : List GateEvent) : Option Nat := gateSteps N 0 es

/-! ### The pipeline's stage sequence -/

/-- The stages of `pipeline = Pipeline(...)` (lines 157-195), in their
construction order. -/
inductive StageName where
  | getItemFromTracker
  | prepareDirectories
  | wgetDownload
  | prepareStatsForTracker
  | moveFiles
  | limitConcurrentUpload
  | sendDoneToTracker
deriving DecidableEq

/-- The order in which `Pipeline` chains the stages. -/
def pipelineStages : List StageName :=
  [StageName.getItemFromTracker,
   StageName.prepareDirectories,
   StageName.wgetDownload,
   StageName.prepareStatsForTracker,
   StageName.moveFiles,
   StageName.limitConcurrentUpload,
   StageName.sendDoneToTracker]

/-- The position of a stage in the pipeline. -/
def stagePos (s : StageName) : Nat := pipelineStages.indexOf s

/-- Whether a stage touches the local filesystem: the tracker round-trips
(`GetItemFromTracker`, `SendDoneToTracker`) are network only, every other
stage reads or writes the staging or data directory. -/
def touchesFilesystem : StageName → Bool
  | StageName.getItemFromTracker => false
  | StageName.sendDoneToTracker => false
  | _ => true

/-- The `PrepareDirectories(warc_prefix="ptch")` instance of line 160. -/
def preparePtch : PrepareDirectories := { warc_prefix := "ptch" }

/-- Each stage's effect on the item's fields.  The two `SimpleTask`s are
the embedded source code: `PrepareDirectories.process` writes item fields
(its item effect does not depend on the filesystem), `MoveFiles.process`
writes none.  The seesaw stages are modelled from the spec:
`GetItemFromTracker` hands the engine the item (its fields are those the
item already carries), `WgetDownload` leaves the item's fields unchanged
between attempts, `PrepareStatsForTracker` fills `stats` with the
configured defaults (line 167), and the upload and done-report stages
transmit without writing item fields. -/
def stageItemEffect (downloader : String) (now : Tm) : StageName → Item → Item
  | StageName.getItemFromTracker, item => item
  | StageName.prepareDirectories, item => (preparePtch.process now item FS.empty).1
  | StageName.wgetDownload, item => item
  | StageName.prepareStatsForTracker, item =>
      { item with stats := some [("downloader", downloader), ("version", VERSION)] }
  | StageName.moveFiles, item => item
  | StageName.limitConcurrentUpload, item => item
  | StageName.sendDoneToTracker, item => item

/-! ### Helper lemmas -/

/-- A stage that always reports `RetryableFailure` drives the retry loop
through all remaining attempts and ends in `FatalFailure`. -/
theorem retryRun_const_retryable (stage : Nat → StageResult)
    (h : ∀ n, stage n = StageResult.RetryableFailure) :
    ∀ (remaining used : Nat),
      retryRun stage remaining used = (StageResult.FatalFailure, used + remaining) := by
  intro remaining
  induction remaining with
  | zero => intro used; simp [retryRun]
  | succ k ih =>
      intro used
      rw [retryRun, h used, ih (used + 1)]
      have : used + 1 + k = used + (k + 1) := by omega
      rw [this]

/-- Replaying an admissible gate history from at most `N` concurrent
executions stays at most `N`. -/
theorem gateSteps_le (N : Nat) :
    ∀ (es : List GateEvent) (cnt0 cnt : Nat), cnt0 ≤ N →
      gateSteps N cnt0 es = some cnt → cnt ≤ N := by
  intro es
  induction es with
  | nil =>
      intro cnt0 cnt h0 h
      simp [gateSteps] at h
      omega
  | cons e es ih =>
      intro cnt0 cnt h0 h
      rw [gateSteps] at h
      cases e with
      | enter =>
          by_cases hlt : cnt0 < N
          · simp [gateStep, hlt] at h
            exact ih (cnt0 + 1) cnt (by omega) h
          · simp [gateStep, hlt] at h
      | leave =>
          by_cases hpos : 0 < cnt0
          · simp [gateStep, hpos] at h
            exact ih (cnt0 - 1) cnt (by omega) h
          · simp [gateStep, hpos] at h

/-! ### Claim theorems -/

/-- C2: for the fetch stage (`accept_on_exit_code=[0, 8]`), a downloader
subprocess exit code of 0 or 8 yields `Success` — and a stage succeeding
on its first attempt is invoked once, never reaching the retry branch —
and every other exit code yields `RetryableFailure`. -/
theorem fetch_exit_codes_0_and_8_accepted :
    (∀ code : Int,
      exitCodeResult fetchStage.accept_on_exit_code code =
        if code = 0 ∨ code = 8 then StageResult.Success
        else StageResult.RetryableFailure) ∧
    (∀ (stage : Nat → StageResult) (k : Nat), stage 0 = StageResult.Success →
      retryRun stage (k + 1) 0 = (StageResult.Success, 1)) := by
  constructor
  · intro code
    by_cases h : code = 0 ∨ code = 8 <;>
      simp [exitCodeResult, fetchStage, List.contains_cons, h]
  · intro stage k h
    simp [retryRun, h]

/-- C2 witness: a stage that exits 8 is accepted, and a stage succeeding
immediately is invoked exactly once. -/
theorem fetch_exit_codes_0_and_8_accepted_witness :
    exitCodeResult fetchStage.accept_on_exit_code 8 = StageResult.Success ∧
    (fun _ : Nat => StageResult.Success) 0 = StageResult.Success ∧
    retryRun (fun _ => StageResult.Success) 5 0 = (StageResult.Success, 1) :=
  ⟨by simpa using fetch_exit_codes_0_and_8_accepted.1 8,
   rfl,
   fetch_exit_codes_0_and_8_accepted.2 (fun _ => StageResult.Success) 4 rfl⟩

/-- C3: the fetch stage is wrapped with `max_tries=5`; a stage wrapped
with maximum attempt count `K` that always returns `RetryableFailure` is
invoked exactly `K` times and then yields `FatalFailure`. -/
theorem fetch_retries_bounded_then_fatal :
    fetchStage.max_tries = 5 ∧
    (∀ (stage : Nat → StageResult) (K : Nat),
      (∀ n, stage n = StageResult.RetryableFailure) →
      retryRun stage K 0 = (StageResult.FatalFailure, K)) := by
  refine ⟨rfl, fun stage K h => ?_⟩
  simpa using retryRun_const_retryable stage h K 0

/-- C3 witness: with the fetch stage's 5 attempts, an always-retryable
stage is invoked 5 times and the item fails fatally. -/
theorem fetch_retries_bounded_then_fatal_witness :
    (∀ n, (fun _ : Nat => StageResult.RetryableFailure) n = StageResult.RetryableFailure) ∧
    retryRun (fun _ => StageResult.RetryableFailure) 5 0 = (StageResult.FatalFailure, 5) :=
  ⟨fun _ => rfl,
   fetch_retries_bounded_then_fatal.2 (fun _ => StageResult.RetryableFailure) 5 (fun _ => rfl)⟩

/-- C7: the upload stage's concurrency ceiling is operator-configurable
with minimum 1, maximum 4 and default 1, and for every ceiling `N` no
admissible gate history ever has more than `N` executions under the
gate. -/
theorem upload_gate_ceiling :
    rsync_threads.min = 1 ∧ rsync_threads.max = 4 ∧ rsync_threads.default = "1" ∧
    (∀ (N : Nat) (es : List GateEvent) (cnt : Nat),
      gateRun N es = some cnt → cnt ≤ N) := by
  refine ⟨rfl, rfl, rfl, fun N es cnt h => ?_⟩
  exact gateSteps_le N es 0 cnt (Nat.zero_le N) h

/-- C7 witness: with ceiling 1, one execution entering the gate is
admitted and the count stays at the ceiling. -/
theorem upload_gate_ceiling_witness :
    gateRun 1 [GateEvent.enter] = some 1 ∧ 1 ≤ 1 :=
  ⟨rfl, upload_gate_ceiling.2.2.2 1 [GateEvent.enter] 1 rfl⟩

/-- Python's one-character split, computed on the string's character
list: `s.split(',')` is `List.splitOn` over the data. -/
theorem pySplitComma_data (s : String) :
    pySplitComma s = (s.data.splitOn ',').map String.mk := by
  rw [pySplitComma, String.split_of_valid]
  rfl

/-- C4: `PrepareDirectories.process` sets `url_list` to the item name
split on commas (`"a.com,b.com"` yields `["a.com", "b.com"]`) and sets
the staging directory path `item_dir` to `data_dir` joined with the SHA-1
hex digest of the item name. -/
theorem prepare_sets_url_list_and_item_dir :
    (∀ (self : PrepareDirectories) (now : Tm) (item : Item) (fs : FS),
      (self.process now item fs).1.url_list = pySplitComma item.item_name ∧
      (self.process now item fs).1.item_dir =
        some (item.data_dir ++ "/" ++ sha1hexdigest item.item_name)) ∧
    pySplitComma "a.com,b.com" = ["a.com", "b.com"] := by
  refine ⟨fun self now item fs => ⟨rfl, rfl⟩, ?_⟩
  rw [pySplitComma_data]
  decide

/-- C5: `PrepareDirectories.process` computes `warc_file_base` as the
configured prefix, the SHA-1 hex digest of the item name (the digest also
used for the staging directory name), and the second-granularity
timestamp, joined with `"-"`, and creates the empty placeholder file
`<warc_file_base>.warc.gz` in the staging directory, the path the fetch
tool will truncate in place. -/
theorem prepare_sets_warc_file_base_and_placeholder
    (self : PrepareDirectories) (now : Tm) (item : Item) (fs : FS) :
    (self.process now item fs).1.warc_file_base =
      some (self.warc_prefix ++ "-" ++ sha1hexdigest item.item_name ++ "-"
        ++ strftimeYmdHMS now) ∧
    (self.process now item fs).1.item_dir =
      some (item.data_dir ++ "/" ++ sha1hexdigest item.item_name) ∧
    (self.process now item fs).2.file
      (item.data_dir ++ "/" ++ sha1hexdigest item.item_name ++ "/"
        ++ (self.warc_prefix ++ "-" ++ sha1hexdigest item.item_name ++ "-"
          ++ strftimeYmdHMS now) ++ ".warc.gz") = some "" := by
  refine ⟨rfl, rfl, ?_⟩
  simp [PrepareDirectories.process, FS.createEmpty]

/-- C1: running `PrepareDirectories.process` twice in a row on the same
item recreates the staging directory `data_dir/<sha1(item_name)>` empty
both times, so no file from the first call is visible to the second call:
the first call leaves the directory existing, a pre-existing directory is
wiped empty by the removal-and-recreation step, the second call's
removal-and-recreation step wipes the directory empty again, and after
the second call the only file in the staging directory is the second
call's own placeholder. -/
theorem prepare_idempotent
    (self : PrepareDirectories) (t1 t2 : Tm) (item : Item) (fs : FS) :
    (self.process t1 item fs).2.isdir
      (item.data_dir ++ "/" ++ sha1hexdigest item.item_name) = true ∧
    (fs.isdir (item.data_dir ++ "/" ++ sha1hexdigest item.item_name) = true →
      ∀ p, pathUnder (item.data_dir ++ "/" ++ sha1hexdigest item.item_name) p = true →
        ((fs.rmtree (item.data_dir ++ "/" ++ sha1hexdigest item.item_name)).makedirs
          (item.data_dir ++ "/" ++ sha1hexdigest item.item_name)).file p = none) ∧
    (∀ p, pathUnder (item.data_dir ++ "/" ++ sha1hexdigest item.item_name) p = true →
      (((self.process t1 item fs).2.rmtree
          (item.data_dir ++ "/" ++ sha1hexdigest item.item_name)).makedirs
          (item.data_dir ++ "/" ++ sha1hexdigest item.item_name)).file p = none) ∧
    (∀ p, pathUnder (item.data_dir ++ "/" ++ sha1hexdigest item.item_name) p = true →
      (self.process t2 (self.process t1 item fs).1 (self.process t1 item fs).2).2.file p =
        if p = item.data_dir ++ "/" ++ sha1hexdigest item.item_name ++ "/"
            ++ (self.warc_prefix ++ "-" ++ sha1hexdigest item.item_name ++ "-"
              ++ strftimeYmdHMS t2) ++ ".warc.gz"
        then some "" else none) := by
  refine ⟨?_, ?_, ?_, ?_⟩
  · simp [PrepareDirectories.process, FS.createEmpty, FS.makedirs]
  · intro _ p hp
    simp [FS.makedirs, FS.rmtree, hp]
  · intro p hp
    simp [FS.makedirs, FS.rmtree, hp]
  · intro p hp
    simp [PrepareDirectories.process, FS.createEmpty, FS.makedirs, FS.rmtree]
    split <;> simp [hp]

/-- C1 witness: on a filesystem where every directory (the staging
directory among them) exists, the pre-existing staging directory is wiped
empty by the removal-and-recreation step of the call. -/
theorem prepare_idempotent_witness :
    ({ isdir := fun _ => true, file := fun _ => some "junk" } : FS).isdir
      (("data" : String) ++ "/" ++ sha1hexdigest "a.com,b.com") = true ∧
    ∀ p, pathUnder (("data" : String) ++ "/" ++ sha1hexdigest "a.com,b.com") p = true →
      ((({ isdir := fun _ => true, file := fun _ => some "junk" } : FS).rmtree
          (("data" : String) ++ "/" ++ sha1hexdigest "a.com,b.com")).makedirs
          (("data" : String) ++ "/" ++ sha1hexdigest "a.com,b.com")).file p = none :=
  ⟨rfl,
   (prepare_idempotent { warc_prefix := "ptch" } ⟨2013, 12, 27, 0, 0, 0⟩ ⟨2013, 12, 27, 0, 0, 1⟩
      { item_name := "a.com,b.com", data_dir := "data", url_list := [], item_dir := none,
        warc_file_base := none, log := [], stats := none }
      { isdir := fun _ => true, file := fun _ => some "junk" }).2.1 rfl⟩

/-- Paths formed by appending `"/" ++ s` to a directory lie under it. -/
theorem pathUnder_concat (d s : String) : pathUnder d (d ++ ("/" ++ s)) = true := by
  rw [pathUnder, ← String.append_assoc, String.data_append (d ++ "/") s,
    List.isPrefixOf_iff_prefix]
  exact List.prefix_append _ _

/-- C6: `MoveFiles.process` moves the produced `<warc_file_base>.warc.gz`
from the staging directory into the durable `data_dir` — afterwards the
durable directory holds that file with its fetched contents — and then
recursively deletes the staging directory, which no longer exists. -/
theorem move_files_relocates_warc (item : Item) (fs : FS) (dir base c : String)
    (hdir : item.item_dir = some dir)
    (hbase : item.warc_file_base = some base)
    (hfile : fs.file (dir ++ "/" ++ base ++ ".warc.gz") = some c)
    (hisdir : fs.isdir dir = true)
    (hdst : pathUnder dir (item.data_dir ++ "/" ++ base ++ ".warc.gz") = false) :
    ∃ fs', MoveFiles.process item fs = some fs' ∧
      fs'.file (item.data_dir ++ "/" ++ base ++ ".warc.gz") = some c ∧
      fs'.isdir dir = false ∧
      (∀ p, pathUnder dir p = true → fs'.file p = none ∧ fs'.isdir p = false) := by
  simp only [MoveFiles.process, hdir, hbase, FS.rename, hfile, Option.map_some']
  rw [if_pos]
  · refine ⟨_, rfl, ?_, ?_, ?_⟩
    · simp [FS.rmtree, hdst]
    · simp [FS.rmtree]
    · intro p hp
      simp [FS.rmtree, hp]
  · exact hisdir

/-- C6 witness: a concrete item whose staged WARC file moves to the data
directory while the staging directory disappears. -/
theorem move_files_relocates_warc_witness :
    ({ item_name := "a.com,b.com", data_dir := "data", url_list := [],
       item_dir := some "data/d41", warc_file_base := some "ptch-d41-20131227-000000",
       log := [], stats := none } : Item).item_dir = some "data/d41" ∧
    ∃ fs',
      MoveFiles.process
        { item_name := "a.com,b.com", data_dir := "data", url_list := [],
          item_dir := some "data/d41", warc_file_base := some "ptch-d41-20131227-000000",
          log := [], stats := none }
        { isdir := fun p => p == "data/d41"
          file := fun p => if p = "data/d41/ptch-d41-20131227-000000.warc.gz"
            then some "warc-bytes" else none } = some fs' ∧
      fs'.file ("data" ++ "/" ++ "ptch-d41-20131227-000000" ++ ".warc.gz") = some "warc-bytes" ∧
      fs'.isdir "data/d41" = false ∧
      (∀ p, pathUnder "data/d41" p = true → fs'.file p = none ∧ fs'.isdir p = false) :=
  ⟨rfl,
   move_files_relocates_warc
     { item_name := "a.com,b.com", data_dir := "data", url_list := [],
       item_dir := some "data/d41", warc_file_base := some "ptch-d41-20131227-000000",
       log := [], stats := none }
     { isdir := fun p => p == "data/d41"
       file := fun p => if p = "data/d41/ptch-d41-20131227-000000.warc.gz"
         then some "warc-bytes" else none }
     "data/d41" "ptch-d41-20131227-000000" "warc-bytes"
     rfl rfl (by simp) rfl (by decide)⟩

/-- The staged WARC path lies under the staging directory. -/
theorem pathUnder_warc (d b : String) :
    pathUnder d (d ++ "/" ++ b ++ ".warc.gz") = true := by
  rw [String.append_assoc, String.append_assoc]
  exact pathUnder_concat d _

/-- C10: the realized wget invocation sends its log to
`<item_dir>/wget.log` and its temporary document to
`<item_dir>/wget.tmp`, both inside the staging directory — and
`MoveFiles.process` relocates only `<warc_file_base>.warc.gz` to the
durable directory: the wget log and temporary document are deleted with
the staging directory, and no path outside the staging directory other
than the relocated WARC file changes, so neither ever reaches the
durable output. -/
theorem move_files_frame_only_warc (wgetLua : String) (item : Item) (fs : FS)
    (dir base c lg tmp : String)
    (hdir : item.item_dir = some dir)
    (hbase : item.warc_file_base = some base)
    (hfile : fs.file (dir ++ "/" ++ base ++ ".warc.gz") = some c)
    (_hlog : fs.file (dir ++ "/wget.log") = some lg)
    (_htmp : fs.file (dir ++ "/wget.tmp") = some tmp)
    (hisdir : fs.isdir dir = true)
    (hdst : pathUnder dir (item.data_dir ++ "/" ++ base ++ ".warc.gz") = false) :
    WgetArgFactory.realize wgetLua none item = some
      ([wgetLua, "-U", USER_AGENT, "-nv",
        "-o", dir ++ "/wget.log",
        "--lua-script", "ptch.lua",
        "--no-check-certificate",
        "--output-document", dir ++ "/wget.tmp",
        "--truncate-output",
        "-e", "robots=off",
        "--rotate-dns",
        "--page-requisites",
        "--timeout", "60",
        "--tries", "inf",
        "--waitretry", "120",
        "--span-hosts",
        "--domains", "ptch.com,ptchcdn.com,viewptch.ptchcdn.com,site-images.ptchcdn.com,site-nav.ptchcdn.com,assets.ptchcdn.com",
        "--warc-file", dir ++ "/" ++ base,
        "--warc-header", "operator: Archive Team",
        "--warc-header", "ptch-dld-script-version: " ++ VERSION,
        "--warc-header", "wretch-user: " ++ item.item_name]
       ++ item.url_list) ∧
    ∃ fs', MoveFiles.process item fs = some fs' ∧
      fs'.file (dir ++ "/wget.log") = none ∧
      fs'.file (dir ++ "/wget.tmp") = none ∧
      fs'.file (item.data_dir ++ "/" ++ base ++ ".warc.gz") = some c ∧
      (∀ p, pathUnder dir p = false →
        p ≠ item.data_dir ++ "/" ++ base ++ ".warc.gz" → fs'.file p = fs.file p) := by
  constructor
  · simp [WgetArgFactory.realize, wget_args, interpolateAll, interpolate, itemField,
      lit, ph, hdir, hbase, String.append_assoc]
  · simp only [MoveFiles.process, hdir, hbase, FS.rename, hfile, Option.map_some']
    rw [if_pos]
    · refine ⟨_, rfl, ?_, ?_, ?_, ?_⟩
      · have h : pathUnder dir (dir ++ "/wget.log") = true := pathUnder_concat dir "wget.log"
        simp [FS.rmtree, h]
      · have h : pathUnder dir (dir ++ "/wget.tmp") = true := pathUnder_concat dir "wget.tmp"
        simp [FS.rmtree, h]
      · simp [FS.rmtree, hdst]
      · intro p hp hne
        have hsrc : p ≠ dir ++ "/" ++ base ++ ".warc.gz" := by
          intro he
          rw [he, pathUnder_warc] at hp
          exact Bool.true_eq_false.mp hp
        simp [FS.rmtree, hp, hne, hsrc]
    · exact hisdir

/-- C10 witness: a concrete staging directory holding the WARC file, the
wget log and the temporary document; after the move only the WARC file
reaches the data directory and the two tool files are gone. -/
theorem move_files_frame_only_warc_witness :
    ({ item_name := "a.com", data_dir := "data", url_list := ["a.com"],
       item_dir := some "data/dd", warc_file_base := some "ptch-dd-20131227-000001",
       log := [], stats := none } : Item).item_dir = some "data/dd" ∧
    ∃ fs',
      MoveFiles.process
        { item_name := "a.com", data_dir := "data", url_list := ["a.com"],
          item_dir := some "data/dd", warc_file_base := some "ptch-dd-20131227-000001",
          log := [], stats := none }
        { isdir := fun p => p == "data/dd"
          file := fun p =>
            if p = "data/dd/ptch-dd-20131227-000001.warc.gz" then some "warc-bytes"
            else if p = "data/dd/wget.log" then some "log-lines"
            else if p = "data/dd/wget.tmp" then some "tmp-bytes"
            else none } = some fs' ∧
      fs'.file ("data/dd" ++ "/wget.log") = none ∧
      fs'.file ("data/dd" ++ "/wget.tmp") = none ∧
      fs'.file ("data" ++ "/" ++ "ptch-dd-20131227-000001" ++ ".warc.gz") = some "warc-bytes" :=
  ⟨rfl,
   match move_files_frame_only_warc "./wget-lua"
     { item_name := "a.com", data_dir := "data", url_list := ["a.com"],
       item_dir := some "data/dd", warc_file_base := some "ptch-dd-20131227-000001",
       log := [], stats := none }
     { isdir := fun p => p == "data/dd"
       file := fun p =>
         if p = "data/dd/ptch-dd-20131227-000001.warc.gz" then some "warc-bytes"
         else if p = "data/dd/wget.log" then some "log-lines"
         else if p = "data/dd/wget.tmp" then some "tmp-bytes"
         else none }
     "data/dd" "ptch-dd-20131227-000001" "warc-bytes" "log-lines" "tmp-bytes"
     rfl rfl (by simp) (by simp) (by simp) rfl (by decide) with
   | ⟨_, fs', hrun, hl, ht, hw, _⟩ => ⟨fs', hrun, hl, ht, hw⟩⟩

/-- C8: `item_dir` and `warc_file_base` are assigned (to the staging path
and the generated WARC basename) by `PrepareDirectories`, the stage at
position 1 of the pipeline; no other stage changes either field, and no
stage that touches the filesystem comes before `PrepareDirectories` in
the pipeline order — so both fields are assigned exactly once, before the
fetch, stats, move and upload stages run, and are never mutated by any
later stage. -/
theorem item_dir_and_warc_base_assigned_once (downloader : String) (now : Tm) :
    (∀ item : Item,
      (stageItemEffect downloader now StageName.prepareDirectories item).item_dir =
        some (item.data_dir ++ "/" ++ sha1hexdigest item.item_name) ∧
      (stageItemEffect downloader now StageName.prepareDirectories item).warc_file_base =
        some ("ptch" ++ "-" ++ sha1hexdigest item.item_name ++ "-" ++ strftimeYmdHMS now)) ∧
    (∀ s : StageName, s ≠ StageName.prepareDirectories → ∀ item : Item,
      (stageItemEffect downloader now s item).item_dir = item.item_dir ∧
      (stageItemEffect downloader now s item).warc_file_base = item.warc_file_base) ∧
    (∀ s : StageName, touchesFilesystem s = true →
      stagePos StageName.prepareDirectories ≤ stagePos s) ∧
    stagePos StageName.prepareDirectories = 1 := by
  refine ⟨fun item => ⟨rfl, rfl⟩, ?_, ?_, by decide⟩
  · intro s hs item
    cases s <;> simp_all [stageItemEffect]
  · intro s
    cases s <;> decide

/-- C8 witness: the move stage is not the preparation stage, and it
leaves a concrete item's `item_dir` and `warc_file_base` untouched. -/
theorem item_dir_and_warc_base_assigned_once_witness :
    StageName.moveFiles ≠ StageName.prepareDirectories ∧
    (stageItemEffect "someone" ⟨2013, 12, 27, 0, 0, 0⟩ StageName.moveFiles
      { item_name := "a.com", data_dir := "data", url_list := ["a.com"],
        item_dir := some "data/dd", warc_file_base := some "ptch-dd-20131227-000000",
        log := [], stats := none }).item_dir = some "data/dd" :=
  ⟨by decide,
   by
    rw [(item_dir_and_warc_base_assigned_once "someone" ⟨2013, 12, 27, 0, 0, 0⟩).2.1
      StageName.moveFiles (by decide)
      { item_name := "a.com", data_dir := "data", url_list := ["a.com"],
        item_dir := some "data/dd", warc_file_base := some "ptch-dd-20131227-000000",
        log := [], stats := none } |>.1]⟩

/-- Intercalating a separator is prepending it to every element after the
first and flattening. -/
theorem intercalate_cons_flatten (sd : List Char) :
    ∀ (as : List (List Char)) (a : List Char),
      List.intercalate sd (a :: as) = a ++ (as.map (fun x => sd ++ x)).flatten := by
  intro as
  induction as with
  | nil => intro a; simp [List.intercalate]
  | cons b t ih =>
      intro a
      have hb := ih b
      simp only [List.intercalate] at hb ⊢
      simp [List.intersperse, hb, List.append_assoc]

/-- The accumulator loop of `String.intercalate`, computed on character
lists. -/
theorem strIntercalateGo (sd : List Char) :
    ∀ (l : List (List Char)) (acc : List Char),
      String.intercalate.go (String.mk acc) (String.mk sd) (l.map String.mk) =
        String.mk (acc ++ (l.map (fun x => sd ++ x)).flatten) := by
  intro l
  induction l with
  | nil => intro acc; simp [String.intercalate.go]
  | cons a as ih =>
      intro acc
      show String.intercalate.go (String.mk acc) (String.mk sd) (String.mk a :: as.map String.mk) = _
      rw [String.intercalate.go]
      have h : String.mk acc ++ String.mk sd ++ String.mk a = String.mk ((acc ++ sd) ++ a) := rfl
      rw [h, ih]
      simp [List.append_assoc]

/-- `String.intercalate` is `List.intercalate` on the data. -/
theorem strIntercalate_mk (sd : List Char) (l : List (List Char)) :
    String.intercalate (String.mk sd) (l.map String.mk) =
      String.mk (List.intercalate sd l) := by
  cases l with
  | nil => rfl
  | cons a as =>
      show String.intercalate.go (String.mk a) (String.mk sd) (as.map String.mk) = _
      rw [strIntercalateGo, intercalate_cons_flatten]

/-- C9: for every item name, `PrepareDirectories.process` computes
`url_list` as the comma split of the name, and joining that split with
`","` gives the name back — the split performs no trimming, deduplication
or reordering — a name without commas yields the singleton list of the
name itself, and the empty name yields `[""]`. -/
theorem url_list_split_roundtrip :
    (∀ (self : PrepareDirectories) (now : Tm) (item : Item) (fs : FS),
      (self.process now item fs).1.url_list = pySplitComma item.item_name) ∧
    (∀ s : String, String.intercalate "," (pySplitComma s) = s) ∧
    (∀ s : String, (∀ c ∈ s.data, c ≠ ',') → pySplitComma s = [s]) ∧
    pySplitComma "" = [""] := by
  refine ⟨fun self now item fs => rfl, ?_, ?_, ?_⟩
  · intro s
    rw [pySplitComma_data]
    have h1 : ("," : String) = String.mk [','] := rfl
    rw [h1, strIntercalate_mk]
    rw [List.intercalate_splitOn]
  · intro s h
    rw [pySplitComma_data]
    have h2 : s.data.splitOn ',' = [s.data] := by
      rw [List.splitOn]
      exact List.splitOnP_eq_single _ _ (fun x hx => by simpa using h x hx)
    rw [h2]
    rfl
  · rw [pySplitComma_data]
    decide

/-- C9 witness: a name without commas splits to the singleton of itself. -/
theorem url_list_split_roundtrip_witness :
    (∀ c ∈ ("a.com" : String).data, c ≠ ',') ∧ pySplitComma "a.com" = ["a.com"] :=
  ⟨by decide, url_list_split_roundtrip.2.2.1 "a.com" (by decide)⟩
